import Mathlib

/-!
Verification development for the jthread-examples repository.

The repository demonstrates cooperative cancellation built on
std::jthread / std::stop_source / std::stop_token / std::stop_callback,
plus worker classes pulling from a shared FIFO task queue
(jthread-ex3 .. jthread-ex7).

The C++ code is embedded shallowly:

* the shared stop state behind a stop_source / its tokens / its callbacks
  is `StopState`; concurrent executions are modelled by their
  linearisation (an interleaving is a list of operations applied in
  sequence, which is what the library's lock around the stop state
  enforces);
* the ex7 `WorkerThread::worker` loop over the shared queue is
  `workerRun`, parametrised by the `mFinishEarly` flag and by the loop
  iteration at which the stop request becomes observed;
* `std::jthread` (the member `mThread` of the worker classes) is
  `JThreadM`, carrying whether a stop state exists (`stop_possible`),
  whether the handle is joinable, and whether the underlying thread is
  still running;
* the ex5/ex6/ex7 worker-class operations `stop`, `start`, the
  destructor, and ex6's `setData` are functions on those states.
-/

namespace JThreadEx

/-! ## Stop state: std::stop_source / stop_token / stop_callback

Registered callback actions are identified by numeric ids.  `pending`
holds the actions currently registered and not yet run, in registration
order; `fired` records every action invocation that has happened, in
order (an id appearing twice in `fired` would mean a double run). -/

structure StopState where
  requested : Bool
  pending : List Nat
  fired : List Nat
  deriving Repr, DecidableEq

/-- A freshly constructed stop source's state: not requested, nothing
registered, nothing has run. -/
def StopState.fresh : StopState := ⟨false, [], []⟩

/-- `stop_requested()` on any token sharing this state. -/
def stopRequested (s : StopState) : Bool := s.requested

/-- `request_stop()`: returns whether this call performed the
not-requested-to-requested transition; on the winning call every pending
callback runs (synchronously, before the call returns), so `pending`
moves onto the end of `fired`. -/
def requestStop (s : StopState) : Bool × StopState :=
  if s.requested then (false, s)
  else (true, { requested := true, pending := [], fired := s.fired ++ s.pending })

/-- Constructing a `std::stop_callback` (the `addCallback` helpers of
ex5/ex6/ex7, and the scoped callbacks of ex3/ex4): if the state is
already requested the action runs immediately on the registering thread,
otherwise it is stored. -/
def registerCallback (s : StopState) (id : Nat) : StopState :=
  if s.requested then { s with fired := s.fired ++ [id] }
  else { s with pending := s.pending ++ [id] }

/-- Destroying a `std::stop_callback` handle: deregisters the action if
it is still pending; a handle whose action already ran is removed
without touching the run record. -/
def destroyCallback (s : StopState) (id : Nat) : StopState :=
  { s with pending := s.pending.erase id }

/-- `n` successive `request_stop()` calls (the linearisation of `n`
possibly concurrent calls), collecting each call's return value. -/
def requestStopN : Nat → StopState → List Bool × StopState
  | 0, s => ([], s)
  | n + 1, s =>
    let r := requestStop s
    let rs := requestStopN n r.2
    (r.1 :: rs.1, rs.2)

/-- An operation on a stop state, for reasoning about arbitrary
interleavings of registration, stop requests and handle destruction. -/
inductive StopOp where
  | register (id : Nat)
  | request
  | destroy (id : Nat)
  deriving Repr, DecidableEq

/-- One step of the linearised execution. -/
def stepOp (s : StopState) : StopOp → StopState
  | .register id => registerCallback s id
  | .request => (requestStop s).2
  | .destroy id => destroyCallback s id

/-- Run a linearised sequence of operations. -/
def runOps (s : StopState) : List StopOp → StopState
  | [] => s
  | op :: ops => runOps (stepOp s op) ops

/-- How many times the trace registers the action `id`. -/
def registersOf (id : Nat) : List StopOp → Nat
  | [] => 0
  | .register j :: ops => (if j = id then 1 else 0) + registersOf id ops
  | _ :: ops => registersOf id ops

/-! ## ex7: WorkerThread::worker over the shared queue

The loop body (jthread-ex7-class-more.cpp lines 155-181) takes the queue
mutex, performs the token-aware
`cv.wait(lock, token, pred)` with predicate `queue.size() > 0`, and

  if (!cv.wait(lock, token, pred) || (mFinishEarly && token.stop_requested()))
      break;
  value = queue.front(); queue.pop();  // then process outside the lock

`workerRun finishEarly j queue` runs the loop under the assumptions the
claims make: no concurrent producer pushes after the point considered,
and the stop request becomes observed by this thread from loop iteration
`j` onwards (`j = 0`: stop already requested when draining starts).
With the queue empty and stop not yet observed the wait blocks; since a
stop does arrive (`j` is finite) the wait then returns `false` and the
loop breaks.  The result is (items dequeued in order, queue left over). -/

def workerRun (finishEarly : Bool) : Nat → List Int → List Int × List Int
  | _, [] => ([], [])
  | 0, v :: rest =>
    if finishEarly then ([], v :: rest)
    else
      let pr := workerRun finishEarly 0 rest
      (v :: pr.1, pr.2)
  | j + 1, v :: rest =>
    let pr := workerRun finishEarly j rest
    (v :: pr.1, pr.2)

/-! ## ex7: the pool and its shutdown (main, lines 252-293)

The pool holds `finish_early=true` primaries; one designated member
(`SPECIAL_THREAD`) carries a stop callback that starts the
`finish_early=false` overflow worker ("Extra") on the same queue.
Shutdown stops every primary non-blocking, then performs a blocking stop
on the overflow worker. -/

structure Pool where
  /-- per-primary: has its stop been requested -/
  primariesStopped : List Bool
  /-- index of the member whose stop callback starts the overflow worker -/
  special : Nat
  /-- has the overflow worker been started -/
  overflowStarted : Bool
  /-- items currently in the shared queue -/
  queue : List Int
  /-- items the overflow worker has dequeued, in order -/
  overflowProcessed : List Int
  deriving Repr, DecidableEq

/-- Non-blocking `stop()` on each primary in turn (the
`for (auto &thread : threads) thread->stop();` loop): every stop request
is recorded; the designated member's callback fires on the winning
transition and starts the overflow worker.  `i` is the index of the
first worker in the list. -/
def stopList : List Bool → Nat → Nat → Bool → List Bool × Bool
  | [], _, _, ov => ([], ov)
  | b :: rest, special, i, ov =>
    let won := !b
    let ov1 := ov || (won && (i == special))
    let r := stopList rest special (i + 1) ov1
    (true :: r.1, r.2)

/-- Stop all primaries (non-blocking). -/
def stopAllPrimaries (p : Pool) : Pool :=
  let r := stopList p.primariesStopped p.special 0 p.overflowStarted
  { p with primariesStopped := r.1, overflowStarted := r.2 }

/-- Blocking `stop()` on the overflow worker: if it was started, it is
stop-requested and joined; being `finish_early=false` with stop already
requested it drains the queue (workerRun with `j = 0`) before
terminating.  If it was never started, its jthread has no stop state
(`stop_possible()` is false) and the call is a no-op. -/
def stopOverflowBlocking (p : Pool) : Pool :=
  if p.overflowStarted then
    { p with
      queue := (workerRun false 0 p.queue).2,
      overflowProcessed := p.overflowProcessed ++ (workerRun false 0 p.queue).1 }
  else p

/-- Pool-wide shutdown (main, lines 284-292). -/
def poolShutdown (p : Pool) : Pool :=
  stopOverflowBlocking (stopAllPrimaries p)

/-! ## std::jthread and the worker-class lifecycle operations -/

/-- Model of the `std::jthread` member `mThread`.  `hasState` is whether
an associated stop state exists (`get_stop_token().stop_possible()`);
a default-constructed jthread has none.  `alive` is whether the
underlying thread of execution is still running. -/
structure JThreadM where
  hasState : Bool
  joinable : Bool
  alive : Bool
  requested : Bool
  deriving Repr, DecidableEq

/-- A default-constructed `std::jthread`: no thread, no stop state. -/
def JThreadM.unstarted : JThreadM := ⟨false, false, false, false⟩

/-- A just-spawned thread: running, joinable, fresh stop state. -/
def JThreadM.running : JThreadM := ⟨true, true, true, false⟩

/-- `request_stop()` on the jthread (no-op without a stop state). -/
def JThreadM.requestStop (t : JThreadM) : JThreadM :=
  if t.hasState then { t with requested := true } else t

/-- `join()`: waits until the thread of execution terminates (the bodies
in these examples terminate once stop is requested, which the `workerRun`
lemmas establish for the queue workers), then the handle is no longer
joinable. -/
def JThreadM.join (t : JThreadM) : JThreadM :=
  if t.joinable then { t with alive := false, joinable := false } else t

/-- The `std::jthread` destructor: if joinable, request stop then join. -/
def JThreadM.dtor (t : JThreadM) : JThreadM :=
  if t.joinable then t.requestStop.join else t

/-- `stop(block)` shared by the worker classes (ex5 lines 93-103, ex6
lines 101-111, ex7 lines 107-117):

  if (mThread.get_stop_token().stop_possible()) {
      mThread.request_stop();
      if (block) { mThread.join(); }
  }

The second component reports whether a join was attempted. -/
def workerStop (block : Bool) (t : JThreadM) : JThreadM × Bool :=
  if t.hasState then
    if block then (t.requestStop.join, true) else (t.requestStop, false)
  else (t, false)

/-- The worker-class destructor (ex5 lines 72-76, ex6 78-82, ex7 81-85):
`{ stop(); }`, i.e. a non-blocking stop, followed by the implicit
destruction of the `mThread` member. -/
def workerDtor (t : JThreadM) : JThreadM :=
  JThreadM.dtor (workerStop false t).1

/-! ## ex5: SimpleWorkerThrad::start (lines 79-89)

`start()` unconditionally executes `mThread = std::jthread(...)`: a new
thread is constructed and move-assigned into `mThread`; the move
assignment first stops and joins the previously owned thread when there
is one.  There is no started-already check and no exception path.
`spawns` counts thread bodies ever spawned for the worker, so that the
effect of a repeated `start()` is observable; the returned Bool reports
whether an existing thread was stopped and joined by the assignment. -/

structure SimpleWorkerThrad where
  mThread : JThreadM
  spawns : Nat
  deriving Repr, DecidableEq

/-- A worker as constructed: default jthread, nothing spawned. -/
def SimpleWorkerThrad.fresh : SimpleWorkerThrad := ⟨JThreadM.unstarted, 0⟩

/-- `start()` of ex5 (the ex6/ex7 versions are the same shape). -/
def SimpleWorkerThrad.start (w : SimpleWorkerThrad) : SimpleWorkerThrad × Bool :=
  (⟨JThreadM.running, w.spawns + 1⟩, w.mThread.joinable)

/-! ## ex6: WorkerThread<T>::setData (lines 134-142)

  if (mThread.joinable() && !mThread.get_stop_token().stop_requested()) {
      std::lock_guard lock(mMutex);
      mData = data;
      mCv.notify_all();
  }

The returned Bool reports whether `mCv.notify_all()` was called. -/

structure WorkerAdv (α : Type) where
  joinable : Bool
  stopRequestedFlag : Bool
  mData : α
  deriving Repr, DecidableEq

/-- `setData` of the ex6 template worker. -/
def setData {α : Type} (w : WorkerAdv α) (d : α) : WorkerAdv α × Bool :=
  if w.joinable && !w.stopRequestedFlag then ({ w with mData := d }, true)
  else (w, false)

end JThreadEx

namespace JThreadEx

/-! ## Helper lemmas -/

lemma requestStop_of_requested (s : StopState) (h : s.requested = true) :
    requestStop s = (false, s) := by
  simp [requestStop, h]

lemma requestStop_of_not_requested (s : StopState) (h : s.requested = false) :
    requestStop s = (true, ⟨true, [], s.fired ++ s.pending⟩) := by
  simp [requestStop, h]

lemma requestStopN_of_requested (n : Nat) (s : StopState) (h : s.requested = true) :
    requestStopN n s = (List.replicate n false, s) := by
  induction n with
  | zero => simp [requestStopN]
  | succ n ih => simp [requestStopN, requestStop_of_requested s h, ih, List.replicate_succ]

lemma workerRun_false_drains (j : Nat) (q : List Int) :
    workerRun false j q = (q, []) := by
  induction q generalizing j with
  | nil => cases j <;> simp [workerRun]
  | cons v rest ih =>
    cases j with
    | zero => simp [workerRun, ih 0]
    | succ j => simp [workerRun, ih j]

lemma workerRun_true_take (j : Nat) (q : List Int) :
    workerRun true j q = (q.take j, q.drop j) := by
  induction q generalizing j with
  | nil => cases j <;> simp [workerRun]
  | cons v rest ih =>
    cases j with
    | zero => simp [workerRun]
    | succ j => simp [workerRun, ih j]

lemma stopList_mono (l : List Bool) (special i : Nat) :
    (stopList l special i true).2 = true := by
  induction l generalizing i with
  | nil => simp [stopList]
  | cons b rest ih => simp [stopList, ih]

lemma stopList_fires (l : List Bool) (k i : Nat) (ov : Bool)
    (hk : k < l.length) (hval : l.getD k true = false) :
    (stopList l (i + k) i ov).2 = true := by
  induction l generalizing k i ov with
  | nil => simp at hk
  | cons b rest ih =>
    cases k with
    | zero =>
      have hb : b = false := by simpa using hval
      subst hb
      have h1 : (stopList (false :: rest) (i + 0) i ov).2
          = (stopList rest i (i + 1) true).2 := by
        simp [stopList]
      rw [h1]
      exact stopList_mono rest i (i + 1)
    | succ k =>
      have h2 : k < rest.length := by simpa using hk
      have h1 : rest.getD k true = false := by simpa using hval
      have heq : i + (k + 1) = (i + 1) + k := by omega
      rw [heq]
      show (stopList (b :: rest) ((i + 1) + k) i ov).2 = true
      simp only [stopList]
      exact ih k (i + 1) _ h2 h1

lemma runOps_count_le (id : Nat) (ops : List StopOp) (s : StopState) :
    (runOps s ops).fired.count id + (runOps s ops).pending.count id ≤
      s.fired.count id + s.pending.count id + registersOf id ops := by
  induction ops generalizing s with
  | nil => simp [runOps]
  | cons op ops ih =>
    refine le_trans (ih (stepOp s op)) ?_
    cases op with
    | register j =>
      cases hreq : s.requested <;> by_cases hj : j = id <;>
        simp [stepOp, registerCallback, hreq, hj, registersOf,
          List.count_append, List.count_cons] <;> omega
    | request =>
      cases hreq : s.requested
      · simp [stepOp, requestStop_of_not_requested s hreq, registersOf,
          List.count_append]
      · simp [stepOp, requestStop_of_requested s hreq, registersOf]
    | destroy j =>
      have herase : ((s.pending.erase j).count id) ≤ s.pending.count id :=
        (List.erase_sublist j s.pending).count_le id
      simp only [stepOp, destroyCallback, registersOf]
      omega

end JThreadEx

namespace JThreadEx

/-! ## Claim theorems -/

/-- Claim C1: among any linearised set of `request_stop()` calls on one
source whose state is not yet requested, exactly one call returns true
(the transition) and every other call returns false; afterwards
`stop_requested()` is true on every token sharing the state, and the
pending callbacks have fired exactly once each, in order, with none lost
or duplicated (`fired` gains precisely the old `pending`). -/
theorem requestStop_exactly_one_winner (n : Nat) (s : StopState)
    (hn : 0 < n) (hs : s.requested = false) :
    (requestStopN n s).1.count true = 1 ∧
    (requestStopN n s).1.count false = n - 1 ∧
    stopRequested (requestStopN n s).2 = true ∧
    (requestStopN n s).2.fired = s.fired ++ s.pending ∧
    (requestStopN n s).2.pending = [] := by
  obtain ⟨m, rfl⟩ : ∃ m, n = m + 1 := ⟨n - 1, (Nat.succ_pred_eq_of_pos hn).symm⟩
  have h1 : requestStopN (m + 1) s
      = (true :: List.replicate m false, ⟨true, [], s.fired ++ s.pending⟩) := by
    simp [requestStopN, requestStop_of_not_requested s hs,
      requestStopN_of_requested m ⟨true, [], s.fired ++ s.pending⟩ rfl]
  rw [h1]
  refine ⟨?_, ?_, rfl, rfl, rfl⟩
  · simp [List.count_cons, List.count_replicate]
  · simp [List.count_cons, List.count_replicate]

/-- Witness for C1 at a concrete input: three racing calls on a fresh
source with one registered callback. -/
theorem requestStop_exactly_one_winner_witness :
    (requestStopN 3 ⟨false, [7], []⟩).1.count true = 1 ∧
    (requestStopN 3 ⟨false, [7], []⟩).1.count false = 3 - 1 ∧
    stopRequested (requestStopN 3 ⟨false, [7], []⟩).2 = true ∧
    (requestStopN 3 ⟨false, [7], []⟩).2.fired = [] ++ [7] ∧
    (requestStopN 3 ⟨false, [7], []⟩).2.pending = [] :=
  requestStop_exactly_one_winner 3 ⟨false, [7], []⟩ (by decide) rfl

/-- Claim C2: registering a callback on an already-requested state runs
the action synchronously before registration returns (it is appended to
the run record right there); on a not-yet-requested state the action is
stored and runs exactly once inside the first successful
`request_stop()`, before that call returns; and along any linearised
execution that registers the action at most once, the action runs at
most once. -/
theorem register_callback_exactly_once (s : StopState) (id : Nat)
    (hp : id ∉ s.pending) (hf : id ∉ s.fired) :
    (s.requested = true →
        registerCallback s id = { s with fired := s.fired ++ [id] }) ∧
    (s.requested = false →
        (requestStop (registerCallback s id)).1 = true ∧
        (requestStop (registerCallback s id)).2.fired.count id = 1 ∧
        (requestStop (registerCallback s id)).2.pending = []) ∧
    (∀ ops : List StopOp, registersOf id ops ≤ 1 →
        (runOps s ops).fired.count id ≤ 1) := by
  have hcp : s.pending.count id = 0 := List.count_eq_zero.mpr hp
  have hcf : s.fired.count id = 0 := List.count_eq_zero.mpr hf
  refine ⟨?_, ?_, ?_⟩
  · intro hreq
    simp [registerCallback, hreq]
  · intro hreq
    have hreg : registerCallback s id = { s with pending := s.pending ++ [id] } := by
      simp [registerCallback, hreq]
    rw [hreg]
    have hreq2 : ({ s with pending := s.pending ++ [id] } : StopState).requested = false :=
      hreq
    rw [requestStop_of_not_requested _ hreq2]
    refine ⟨rfl, ?_, rfl⟩
    simp [List.count_append, hcp, hcf]
  · intro ops hops
    have h := runOps_count_le id ops s
    omega

/-- Witness for C2 at a concrete input: register action 7 on a fresh
state, then two stop requests; it runs exactly once. -/
theorem register_callback_exactly_once_witness :
    (requestStop (registerCallback StopState.fresh 7)).1 = true ∧
    (requestStop (registerCallback StopState.fresh 7)).2.fired.count 7 = 1 ∧
    (runOps StopState.fresh
      [StopOp.register 7, StopOp.request, StopOp.request]).fired.count 7 ≤ 1 :=
  ⟨((register_callback_exactly_once StopState.fresh 7 (by decide) (by decide)).2.1 rfl).1,
   ((register_callback_exactly_once StopState.fresh 7 (by decide) (by decide)).2.1 rfl).2.1,
   (register_callback_exactly_once StopState.fresh 7 (by decide) (by decide)).2.2
     [StopOp.register 7, StopOp.request, StopOp.request] (by decide)⟩

/-- Claim C3: a `finish_early=false` worker started on a queue holding
exactly the items `q` at the moment the stop request is visible (and
with no further pushes) dequeues exactly those items, in FIFO order,
and only then leaves its loop — in particular for the scenario queue
`[5, 4, 3, 2, 1]` — even though the stop request is observed throughout
the drain. -/
theorem drain_worker_processes_all_fifo (q : List Int) :
    workerRun false 0 q = (q, []) ∧
    workerRun false 0 [5, 4, 3, 2, 1] = ([5, 4, 3, 2, 1], []) :=
  ⟨workerRun_false_drains 0 q, workerRun_false_drains 0 [5, 4, 3, 2, 1]⟩

/-- Claim C4: a `finish_early=true` worker with `K` items pre-loaded and
a stop request arriving before the drain completes dequeues at most `K`
items and leaves its loop instead of blocking; when it observes the stop
with the queue empty it exits at once, and when it observes the stop
while items remain it exits without dequeuing another item. -/
theorem finish_early_worker_exits (j : Nat) (q : List Int) (v : Int)
    (rest : List Int) :
    (workerRun true j q).1.length ≤ q.length ∧
    workerRun true 0 (v :: rest) = ([], v :: rest) ∧
    workerRun true j [] = ([], []) := by
  refine ⟨?_, ?_, ?_⟩
  · rw [workerRun_true_take]
    simp
  · simp [workerRun]
  · cases j <;> simp [workerRun]

end JThreadEx

namespace JThreadEx

/-- Claim C5: pool-wide shutdown — non-blocking `stop()` on every
primary (firing the designated member's callback, which starts the
overflow worker), then a blocking stop on the overflow worker — ends
with the overflow worker started, the queue's final length 0, and every
item that was still queued dequeued (in order) by the overflow worker;
items no longer in the queue had already been dequeued by the primaries
before shutdown. -/
theorem pool_shutdown_drains_queue (p : Pool)
    (hk : p.special < p.primariesStopped.length)
    (hval : p.primariesStopped.getD p.special true = false) :
    (poolShutdown p).overflowStarted = true ∧
    (poolShutdown p).queue = [] ∧
    (poolShutdown p).overflowProcessed = p.overflowProcessed ++ p.queue := by
  have hov : (stopAllPrimaries p).overflowStarted = true := by
    have h := stopList_fires p.primariesStopped p.special 0 p.overflowStarted hk hval
    simpa [stopAllPrimaries] using h
  have hq : (stopAllPrimaries p).queue = p.queue := rfl
  have hop : (stopAllPrimaries p).overflowProcessed = p.overflowProcessed := rfl
  unfold poolShutdown stopOverflowBlocking
  rw [hov]
  simp [hq, hop, workerRun_false_drains]

/-- Witness for C5: the scenario of the spec — two primaries with the
callback on the first, stop requested on none yet, three items queued,
overflow worker not yet started. -/
theorem pool_shutdown_drains_queue_witness :
    (poolShutdown ⟨[false, false], 0, false, [3, 2, 1], []⟩).overflowStarted = true ∧
    (poolShutdown ⟨[false, false], 0, false, [3, 2, 1], []⟩).queue = [] ∧
    (poolShutdown ⟨[false, false], 0, false, [3, 2, 1], []⟩).overflowProcessed
      = [] ++ [3, 2, 1] :=
  pool_shutdown_drains_queue ⟨[false, false], 0, false, [3, 2, 1], []⟩
    (by decide) (by decide)

/-- Claim C6: the worker destructor (`{ stop(); }` followed by the
implicit destruction of the jthread member, which stop-requests and
joins a joinable thread) never returns while the underlying thread is
still alive; for a started, running worker it also leaves the thread
stop-requested and joined.  The hypotheses are the std::jthread
invariants: a running thread is joinable, and a joinable jthread owns a
stop state. -/
theorem worker_dtor_no_leaked_thread (t : JThreadM)
    (hAlive : t.alive = true → t.joinable = true)
    (hJoin : t.joinable = true → t.hasState = true) :
    (workerDtor t).alive = false ∧
    (t.joinable = true →
      (workerDtor t).requested = true ∧ (workerDtor t).joinable = false) := by
  unfold workerDtor workerStop JThreadM.dtor JThreadM.requestStop JThreadM.join
  cases h1 : t.hasState <;> cases h2 : t.joinable <;> cases h3 : t.alive <;>
    simp_all

/-- Witness for C6: destroying a started, still-running worker. -/
theorem worker_dtor_no_leaked_thread_witness :
    (workerDtor JThreadM.running).alive = false ∧
    (workerDtor JThreadM.running).requested = true :=
  ⟨(worker_dtor_no_leaked_thread JThreadM.running (by decide) (by decide)).1,
   ((worker_dtor_no_leaked_thread JThreadM.running (by decide) (by decide)).2 rfl).1⟩

/-- Claim C9: `stop()` (blocking or not) on a never-started worker is a
no-op, not an error: the default-constructed jthread has no stop state,
so `stop_possible()` is false, nothing is requested and no join is
attempted (the reported join flag is false); and a second non-blocking
`stop()` after a stop has already been issued performs no further state
transition. -/
theorem stop_unstarted_noop_idempotent (b : Bool) (t : JThreadM) :
    JThreadM.unstarted.hasState = false ∧
    workerStop b JThreadM.unstarted = (JThreadM.unstarted, false) ∧
    (workerStop false (workerStop false t).1).1 = (workerStop false t).1 := by
  refine ⟨rfl, ?_, ?_⟩
  · cases b <;> simp [workerStop, JThreadM.unstarted]
  · cases h : t.hasState <;>
      simp [workerStop, JThreadM.requestStop, h]

/-- Claim C10: ex6 `WorkerThread<T>::setData` leaves `mData` unchanged
and performs no condition-variable notification when the thread is not
joinable (never started) or its stop has been requested; only for a
started, not-stop-requested worker does it store the data and notify;
hence data written after a stop request cannot change the value of any
task-complete predicate on `mData`. -/
theorem setData_frame {α : Type} (w : WorkerAdv α) (d : α)
    (taskComplete : α → Bool) :
    ((w.joinable = false ∨ w.stopRequestedFlag = true) →
        setData w d = (w, false)) ∧
    (w.joinable = true → w.stopRequestedFlag = false →
        (setData w d).1.mData = d ∧ (setData w d).2 = true) ∧
    (w.stopRequestedFlag = true →
        taskComplete (setData w d).1.mData = taskComplete w.mData) := by
  refine ⟨?_, ?_, ?_⟩
  · rintro (h | h) <;> simp [setData, h]
  · intro h1 h2
    simp [setData, h1, h2]
  · intro h
    simp [setData, h]

/-- Witness for C10: writing to a stop-requested worker changes nothing
and does not notify. -/
theorem setData_frame_witness :
    setData (⟨true, true, (0 : Int)⟩ : WorkerAdv Int) 5
      = ((⟨true, true, (0 : Int)⟩ : WorkerAdv Int), false) :=
  (setData_frame (⟨true, true, (0 : Int)⟩ : WorkerAdv Int) 5
    (fun x => x == 5)).1 (Or.inr rfl)

/-- Claim C7 counterexample: `start()` on an already-started ex5/ex6
worker is not rejected — the code has no started-already check and no
error path; `mThread = std::jthread(...)` spawns a second body (the
spawn count advances), so the second `start()` is not a no-op. -/
theorem start_double_not_rejected :
    (SimpleWorkerThrad.start
        (SimpleWorkerThrad.start SimpleWorkerThrad.fresh).1).1 ≠
      (SimpleWorkerThrad.start SimpleWorkerThrad.fresh).1 := by
  decide

/-- Claim C7 amended: a second `start()` is not rejected; it spawns a
fresh body, and the jthread move assignment stops and joins the
previously owned thread (reported by the returned flag), after which the
worker owns a single fresh running body — so the worker never ends up
holding two bodies. -/
theorem start_double_replaces (w : SimpleWorkerThrad)
    (h : w.mThread.joinable = true) :
    (SimpleWorkerThrad.start w).1.spawns = w.spawns + 1 ∧
    (SimpleWorkerThrad.start w).2 = true ∧
    (SimpleWorkerThrad.start w).1.mThread = JThreadM.running := by
  simp [SimpleWorkerThrad.start, h]

/-- Witness for C7's amended statement: restarting a started worker. -/
theorem start_double_replaces_witness :
    (SimpleWorkerThrad.start ⟨JThreadM.running, 1⟩).1.spawns = 1 + 1 ∧
    (SimpleWorkerThrad.start ⟨JThreadM.running, 1⟩).2 = true ∧
    (SimpleWorkerThrad.start ⟨JThreadM.running, 1⟩).1.mThread = JThreadM.running :=
  start_double_replaces ⟨JThreadM.running, 1⟩ rfl

/-- Claim C8: destroying a callback handle before any stop deregisters
the action, so a later `request_stop()` never runs it; under a race with
`request_stop()` each linearisation gives exactly one of the two
outcomes — destroy first: the action never runs; stop first: the action
ran exactly once and the destruction after it changes nothing — and in
neither order does the action run twice. -/
theorem destroy_handle_no_double_run (s : StopState) (id : Nat)
    (hp : s.pending.count id = 1) (hf : id ∉ s.fired)
    (hr : s.requested = false) :
    (requestStop (destroyCallback s id)).2.fired.count id = 0 ∧
    (destroyCallback (requestStop s).2 id).fired.count id = 1 ∧
    (destroyCallback (requestStop s).2 id).pending = [] := by
  have hcf : s.fired.count id = 0 := List.count_eq_zero.mpr hf
  have hmem : id ∈ s.pending := by
    by_contra hmem
    rw [List.count_eq_zero.mpr hmem] at hp
    exact Nat.zero_ne_one hp
  have herase : (s.pending.erase id).count id = 0 := by
    rw [List.count_erase_self, hp]
  refine ⟨?_, ?_, ?_⟩
  · have hr2 : (destroyCallback s id).requested = false := hr
    rw [requestStop_of_not_requested _ hr2]
    simp [destroyCallback, List.count_append, hcf, herase]
  · rw [requestStop_of_not_requested s hr]
    simp [destroyCallback, List.count_append, hcf, hp]
  · rw [requestStop_of_not_requested s hr]
    simp [destroyCallback]

/-- Witness for C8: one pending action, both interleavings. -/
theorem destroy_handle_no_double_run_witness :
    (requestStop (destroyCallback ⟨false, [7], []⟩ 7)).2.fired.count 7 = 0 ∧
    (destroyCallback (requestStop ⟨false, [7], []⟩).2 7).fired.count 7 = 1 ∧
    (destroyCallback (requestStop ⟨false, [7], []⟩).2 7).pending = [] :=
  destroy_handle_no_double_run ⟨false, [7], []⟩ 7 (by decide) (by decide) rfl

end JThreadEx
